import Mathlib

/-
Shallow embedding of the blockchain-based-voting repository
(src/base.py, src/consensus.py, src/utils.py, src/votingprogram.py,
src/legacy/setup.py) in Lean 4, together with theorems settling the
claims of the specification against the code.

Modelling conventions:
  - RSA-PSS over SHA-256 (src/utils.py sign / verify_signature) is
    idealized: a signature is the pair of the signing key and the exact
    message string, and verification succeeds exactly when both the
    bytes and the key match, which is the ideal-crypto reading of the
    spec sentence about RSA-PSS.  What the code actually feeds to sign
    and verify (the canonical signature contents) is translated
    faithfully.
  - Python objects are modelled as values carrying an object id field
    oid; default Python equality and hashing (identity) is equality of
    oid, and every constructed object receives a distinct oid.  Python
    sets of transactions are modelled as insertion-ordered lists with
    membership and deduplication keyed by oid, and Python dicts as
    insertion-ordered association lists.  CPython set iteration order
    is implementation defined; the model uses insertion order.  The
    facts proved below never depend on a particular set order being
    produced, only on the code applying no explicit ordering.
  - Python str(dict) renderings that are only used as signed bytes are
    modelled by a deterministic rendering function over the same data;
    the exact characters are immaterial to every claim, only
    determinism and field sensitivity matter.
  - Machine arithmetic: the agreement test tally/network_size >= 0.8
    is modelled over the rationals.  For the integer ranges that can
    arise here (tallies and node counts far below 10^15) Python float
    division and comparison against the literal 0.8 agree with exact
    rational comparison, because 4/5 rounds to the double nearest 0.8
    and every other quotient is separated from 0.8 by far more than
    one unit in the last place.
-/

deriving instance DecidableEq for Except

namespace BBVoting

/-- Idealized RSA signature: the signing key together with the exact signed
message (src/utils.py sign, key pairs collapsed to one identifier). -/
structure Sig where
  pub : Nat
  msg : String
deriving DecidableEq, Repr

/-- utils.sign (src/utils.py lines 19-36): signs a message with the private
key; in the ideal model the signature records the key and the message. -/
def sign (key : Nat) (message : String) : Sig := ⟨key, message⟩

/-- utils.verify_signature (src/utils.py lines 39-64).  The Python function
RETURNS a boolean: it calls public_key.verify, catches the InvalidSignature
it may raise, and returns False in that case; it never lets InvalidSignature
escape.  Verification succeeds exactly when the signed bytes and the key
match. -/
def verify_signature (message : String) (signature : Sig) (public_key : Nat) : Bool :=
  signature.msg == message && signature.pub == public_key

/-- Voter (src/votingprogram.py lines 13-24). -/
structure Voter where
  id : String
  name : String
  num_claim_tickets : Nat
deriving DecidableEq, Repr

/-- Voter.get_signature_contents (src/votingprogram.py line 23):
"id:name". -/
def Voter.get_signature_contents (v : Voter) : String :=
  v.id ++ ":" ++ v.name

/-- One value of the Ballot.items dict (src/votingprogram.py lines 44-49):
description, choices (a Python list, indexed by integers), max_choices and
the selected index list.  Selections are Python ints and may be negative. -/
structure BallotItem where
  description : String
  choices : List String
  max_choices : Nat
  selected : List Int
deriving DecidableEq, Repr

/-- Ballot (src/votingprogram.py lines 27-49): election label and the items
dict, modelled as an insertion-ordered association list. -/
structure Ballot where
  election : String
  items : List (String × BallotItem)
deriving DecidableEq, Repr

/-- Deterministic rendering of a Python list of strings, standing in for its
repr inside str(self.items). -/
def pyStrList (l : List String) : String :=
  "[" ++ String.intercalate ", " l ++ "]"

/-- Deterministic rendering of a Python list of ints. -/
def pyStrIntList (l : List Int) : String :=
  "[" ++ String.intercalate ", " (l.map toString) ++ "]"

/-- Deterministic rendering of one items entry of a Ballot. -/
def pyStrItem (e : String × BallotItem) : String :=
  "<" ++ e.1 ++ ": desc=" ++ e.2.description ++ "; choices=" ++ pyStrList e.2.choices
    ++ "; max_choices=" ++ toString e.2.max_choices
    ++ "; selected=" ++ pyStrIntList e.2.selected ++ ">"

/-- Deterministic rendering of the Ballot items dict, standing in for
Python str(self.items) (insertion ordered, covers every field). -/
def pyStrItems (items : List (String × BallotItem)) : String :=
  "\x7b" ++ String.intercalate ", " (items.map pyStrItem) ++ "\x7d"

/-- Ballot.get_signature_contents (src/votingprogram.py lines 35-37):
election label concatenated with str(items); the kwargs are ignored by this
draft. -/
def Ballot.get_signature_contents (b : Ballot) : String :=
  b.election ++ pyStrItems b.items

/-- BallotClaimTicket (src/base.py lines 191-204): random 128-bit id, the
issuing node (kept as its public key), and the issuer signature over the
id.  The signature field is stored as constructed by __init__ for honest
nodes but may hold anything for adversarial issuers. -/
structure BallotClaimTicket where
  id : String
  node : Nat
  signature : Sig
deriving DecidableEq, Repr

/-- BallotClaimTicket.get_signature_contents (src/base.py line 203). -/
def BallotClaimTicket.get_signature_contents (t : BallotClaimTicket) : String :=
  t.id

/-- BallotClaimTicket.validate (src/base.py lines 206-216).  It calls
utils.verify_signature, which returns a boolean and never raises
InvalidSignature (the library exception is swallowed inside
utils.verify_signature), so the except branch here is dead and validate
always returns normally, whatever the signature. -/
def BallotClaimTicket.validate (t : BallotClaimTicket) : Except String Unit :=
  let _ := verify_signature t.get_signature_contents t.signature t.node
  Except.ok ()

/-- Content of a transaction: a Voter for VoterTransaction, a Ballot for
BallotTransaction (src/base.py lines 511-527). -/
inductive TxContent where
  | voter (v : Voter)
  | ballot (b : Ballot)
deriving DecidableEq, Repr

/-- Dispatch of content.get_signature_contents. -/
def TxContent.get_signature_contents : TxContent → String
  | .voter v => v.get_signature_contents
  | .ballot b => b.get_signature_contents

/-- Transaction (src/base.py lines 431-527), covering both subclasses:
a VoterTransaction has ballot_claim_ticket = none, a BallotTransaction
carries its ticket.  oid models Python object identity: the class defines
neither __eq__ nor __hash__, so equality and the set/dict hash key are
object identity.  timeStr is the minute-formatted timestamp string used in
the signed bytes; timeRank totally orders the underlying datetimes (tx.time
comparisons).  signature_kwargs are empty in every call site of this draft
and Ballot.get_signature_contents ignores them, so they are omitted. -/
structure Transaction where
  oid : Nat
  content : TxContent
  node : Nat
  previous_state : String
  new_state : String
  timeStr : String
  timeRank : Nat
  ballot_claim_ticket : Option BallotClaimTicket
  signature : Sig
deriving DecidableEq, Repr

/-- Transaction.get_signature_contents (src/base.py lines 472-488) with the
BallotTransaction override (lines 518-523): content, previous state, new
state and the minute timestamp joined by colons; a BallotTransaction
appends the claim ticket id. -/
def Transaction.get_signature_contents (tx : Transaction) : String :=
  let base := String.intercalate ":"
    [tx.content.get_signature_contents, tx.previous_state, tx.new_state, tx.timeStr]
  match tx.ballot_claim_ticket with
  | none => base
  | some t => base ++ ":" ++ t.get_signature_contents

/-- Transaction.validate_transaction (src/base.py lines 496-508).  It calls
utils.verify_signature, whose boolean result is discarded; the
except InvalidSignature branch can never fire because utils.verify_signature
catches InvalidSignature internally and returns False instead of raising.
The method therefore always returns normally. -/
def Transaction.validate_transaction (tx : Transaction) : Except String Unit :=
  let _ := verify_signature tx.get_signature_contents tx.signature tx.node
  Except.ok ()

/-- Modelled from the spec: the constants module of this draft is missing
from src (src/base.py does a star import of names such as
NOT_RETRIEVED_BALLOT that src/constants.py, a legacy file, does not define).
The spec gives the VoterTx transition NOT_RETRIEVED to RETRIEVED; the tag
values are opaque strings. -/
def NOT_RETRIEVED_BALLOT : String := "NOT_RETRIEVED"

/-- Modelled from the spec: see NOT_RETRIEVED_BALLOT. -/
def RETRIEVED_BALLOT : String := "RETRIEVED"

/-- Modelled from the spec: BallotTx transition tag CREATED (the constants
module of this draft is missing from src). -/
def BALLOT_CREATED : String := "CREATED"

/-- Modelled from the spec: BallotTx transition tag USED. -/
def BALLOT_USED : String := "USED"

/-- MINIMUM_AGREEMENT_PCT = 0.8 (src/legacy/setup.py line 12, also the
value the spec names), as an exact rational. -/
def MINIMUM_AGREEMENT_PCT : ℚ := 8 / 10

/-- Constructor for VoterTransaction (src/base.py line 294 and lines
439-467): content is the voter, the states are the retrieval tags, and the
signature is produced by the issuing node over the canonical signature
contents. -/
def mkVoterTransaction (oid : Nat) (v : Voter) (nodeKey : Nat)
    (timeStr : String) (timeRank : Nat) : Transaction :=
  let tx : Transaction :=
    { oid := oid, content := .voter v, node := nodeKey,
      previous_state := NOT_RETRIEVED_BALLOT, new_state := RETRIEVED_BALLOT,
      timeStr := timeStr, timeRank := timeRank,
      ballot_claim_ticket := none, signature := ⟨0, ""⟩ }
  { tx with signature := sign nodeKey tx.get_signature_contents }

/-- Constructor for BallotTransaction (src/base.py lines 340-348 and
511-523): content is the filled ballot, states are the ballot tags, the
claim ticket is attached and its id enters the signed bytes. -/
def mkBallotTransaction (oid : Nat) (ticket : BallotClaimTicket) (b : Ballot)
    (nodeKey : Nat) (timeStr : String) (timeRank : Nat) : Transaction :=
  let tx : Transaction :=
    { oid := oid, content := .ballot b, node := nodeKey,
      previous_state := BALLOT_CREATED, new_state := BALLOT_USED,
      timeStr := timeStr, timeRank := timeRank,
      ballot_claim_ticket := some ticket, signature := ⟨0, ""⟩ }
  { tx with signature := sign nodeKey tx.get_signature_contents }

/-- Membership of a transaction in a Python set of transactions: keyed by
object identity (no __eq__ / __hash__ on Transaction). -/
def txMem (tx : Transaction) (pool : List Transaction) : Bool :=
  pool.any (fun t => t.oid == tx.oid)

/-- Python set.add on a transaction pool: no-op when an object with the
same identity is present, otherwise appended. -/
def setAdd (pool : List Transaction) (tx : Transaction) : List Transaction :=
  if txMem tx pool then pool else pool ++ [tx]

/-- Python set.remove / discard of one transaction, keyed by identity. -/
def setRemove (pool : List Transaction) (tx : Transaction) : List Transaction :=
  pool.filter (fun t => !(t.oid == tx.oid))

/-- Lookup in a Python dict with string keys (association list, first hit). -/
def dictGetStr {α : Type} (d : List (String × α)) (k : String) : Option α :=
  (d.find? (fun e => e.1 == k)).map (·.2)

/-- Python dict assignment d[k] = v with string keys: replace in place when
the key is present, append otherwise (insertion order preserved). -/
def dictSetStr {α : Type} (d : List (String × α)) (k : String) (v : α) :
    List (String × α) :=
  if (d.find? (fun e => e.1 == k)).isSome then
    d.map (fun e => if e.1 == k then (e.1, v) else e)
  else d ++ [(k, v)]

/-- Lookup in a Python dict keyed by Transaction objects (identity keys). -/
def dictGetTx {α : Type} (d : List (Transaction × α)) (tx : Transaction) : Option α :=
  (d.find? (fun e => e.1.oid == tx.oid)).map (·.2)

/-- Python dict assignment d[tx] = v with Transaction (identity) keys. -/
def dictSetTx {α : Type} (d : List (Transaction × α)) (tx : Transaction) (v : α) :
    List (Transaction × α) :=
  if (d.find? (fun e => e.1.oid == tx.oid)).isSome then
    d.map (fun e => if e.1.oid == tx.oid then (e.1, v) else e)
  else d ++ [(tx, v)]

/-- Kind-specific data of a node.  plain is the abstract base class Node
(src/base.py line 30), whose validate_transaction is just
Transaction.validate_transaction (line 92).  booth is
VoterAuthenticationBooth (line 229) with its voter roll and the state dict
of the current block of its VoterBlockchain.  computer is VotingComputer
(line 327) with its ballot template and the per-instance list of committed
transaction lists of its BallotBlockchain (the blocks after genesis). -/
inductive NodeData where
  | plain
  | booth (voter_roll : List Voter) (chainState : List (String × Int))
  | computer (ballot : Ballot) (ownBlocks : List (List Transaction))
deriving DecidableEq, Repr

/-- A node (src/base.py lines 30-48): identity key, the peer directory
node_mapping (keys only; the directory excludes the node itself), and the
verified and rejected transaction pools. -/
structure NodeState where
  key : Nat
  node_mapping : List Nat
  verified_transactions : List Transaction
  rejected_transactions : List Transaction
  data : NodeData
deriving DecidableEq, Repr

/-- Node.is_node_in_network (src/base.py lines 173-181): recognized when
the key is the node itself or appears in the peer directory (returned here
as the recognition boolean; the Python method raises UnrecognizedNode on
False, which add_transaction catches). -/
def is_node_in_network (n : NodeState) (public_key : Nat) : Bool :=
  public_key == n.key || n.node_mapping.contains public_key

/-- The voter id of the content of a transaction, when the content is a
voter (attribute access tx.content.id in the booth code). -/
def txVoterId (tx : Transaction) : Option String :=
  match tx.content with
  | .voter v => some v.id
  | .ballot _ => none

/-- VoterAuthenticationBooth._voter_has_claim_tickets (src/base.py lines
262-271): remaining tickets in the current block state minus the number of
verified-pool transactions whose content id equals the voter id, compared
with 0.  Returns none when the voter id is not a key of the state dict
(Python would hit a TypeError on None arithmetic there). -/
def voter_has_claim_tickets (n : NodeState) (voter_id : String) : Option Bool :=
  match n.data with
  | .booth _ chainState =>
    match dictGetStr chainState voter_id with
    | none => none
    | some left =>
      let pending : Nat :=
        (n.verified_transactions.filter (fun tx => txVoterId tx == some voter_id)).length
      some (decide (left - (pending : Int) > 0))
  | _ => none

/-- Errors surfaced by validation (src/exceptions.py plus the Python
runtime errors the code can raise). -/
inductive VErr where
  | unrecognizedNode (msg : String)
  | unknownVoter (msg : String)
  | notEnoughBallotClaimTickets
  | usedBallotClaimTicket (msg : String)
  | invalidBallot (msg : String)
  | conflictingTransaction (msg : String)
  | attributeError (msg : String)
  | typeError
  | indexError
deriving DecidableEq, Repr

/-- Result of VotingComputer.validate_ballot: ok, InvalidBallot raised, or
an uncaught Python IndexError escaping the method. -/
inductive BallotCheck where
  | ok
  | invalidBallot (msg : String)
  | indexError
deriving DecidableEq, Repr

/-- Is i a valid Python index into a list of length len (negative indices
wrap from the end)? -/
def pyIndexOk (len : Nat) (i : Int) : Bool :=
  decide (-(len : Int) ≤ i) && decide (i < (len : Int))

/-- VotingComputer.validate_ballot (src/base.py lines 386-402), iterated
over the items of the submitted ballot in insertion order against the
template (expected = deepcopy of the node ballot).  A position missing from
the template raises InvalidBallot.  The selected indices are then used to
index the choices list of the template item: a Python list, so an
out-of-range index raises IndexError, which the except KeyError branch does
NOT catch (that branch is dead: no expression in the try block can raise
KeyError), and the IndexError escapes the method.  max_choices is never
consulted. -/
def validate_ballot (expected : Ballot) (b : Ballot) : BallotCheck :=
  validateItems expected b.items
where
  validateItems (expected : Ballot) : List (String × BallotItem) → BallotCheck
    | [] => .ok
    | (position, item) :: rest =>
      match dictGetStr expected.items position with
      | none => .invalidBallot ("Position " ++ position ++ " is not part of original ballot template")
      | some expItem =>
        if item.selected.all (fun i => pyIndexOk expItem.choices.length i) then
          validateItems expected rest
        else .indexError

/-- Dispatch of validate_transaction over the node classes.  The shared
argument is the class attribute BallotBlockchain.ballot_claim_tickets
(src/base.py line 629), a single list shared by every instance; computer
validation reads it.
  - plain (base Node, src/base.py lines 92-94): Transaction.validate_transaction,
    which never fails (see its doc).
  - booth (src/base.py lines 245-260): the super call never fails; then
    UnknownVoter when the content voter id is not a key of the current
    block state; then NotEnoughBallotClaimTickets via
    _voter_has_claim_tickets.  Content that is not a Voter hits an
    AttributeError at voter.id.
  - computer (src/base.py lines 369-384): the super call and
    BallotClaimTicket.validate never fail; a transaction without a
    ballot_claim_ticket attribute (a VoterTransaction) hits an
    AttributeError; then UsedBallotClaimTicket when some ticket in the
    shared list has the same id; then validate_ballot on the content, whose
    InvalidBallot or escaping IndexError propagates. -/
def validateTransaction (shared : List BallotClaimTicket) (n : NodeState)
    (tx : Transaction) : Except VErr Unit :=
  match n.data with
  | .plain =>
    let _ := Transaction.validate_transaction tx
    Except.ok ()
  | .booth _ chainState =>
    let _ := Transaction.validate_transaction tx
    match tx.content with
    | .ballot _ => .error (.attributeError "Ballot object has no attribute id")
    | .voter v =>
      if (dictGetStr chainState v.id).isNone then
        .error (.unknownVoter (v.id ++ " (" ++ v.name ++ ") is not on voter roll"))
      else
        match voter_has_claim_tickets n v.id with
        | none => .error .typeError
        | some true => .ok ()
        | some false => .error .notEnoughBallotClaimTickets
  | .computer ballot _ =>
    let _ := Transaction.validate_transaction tx
    match tx.ballot_claim_ticket with
    | none => .error (.attributeError "VoterTransaction object has no attribute ballot_claim_ticket")
    | some t =>
      let _ := BallotClaimTicket.validate t
      if shared.any (fun used => used.id == t.id) then
        .error (.usedBallotClaimTicket ("Ballot claim id " ++ t.id ++ " attempted to be used multiple times"))
      else
        match tx.content with
        | .voter _ => .error (.attributeError "Voter object has no attribute items")
        | .ballot b =>
          match validate_ballot ballot b with
          | .ok => .ok ()
          | .invalidBallot msg => .error (.invalidBallot msg)
          | .indexError => .error .indexError

/-- Node.add_transaction (src/base.py lines 72-90): checks that the issuing
node is recognized, runs the class-specific validate_transaction, and on
success adds the transaction to the verified pool and returns True; any
exception is caught and the transaction is added to the rejected pool with
False returned. -/
def add_transaction (shared : List BallotClaimTicket) (n : NodeState)
    (tx : Transaction) : Bool × NodeState :=
  if is_node_in_network n tx.node then
    match validateTransaction shared n tx with
    | .ok _ =>
      (true, { n with verified_transactions := setAdd n.verified_transactions tx })
    | .error _ =>
      (false, { n with rejected_transactions := setAdd n.rejected_transactions tx })
  else
    (false, { n with rejected_transactions := setAdd n.rejected_transactions tx })

/-- BallotBlockchain.add_block followed by post_add_block (src/base.py
lines 604-611 and 643-646) for a computer node: a new block holding the
transaction list is appended to this instance, and every committed
transaction has its ballot_claim_ticket appended to
BallotBlockchain.ballot_claim_tickets.  That list is a CLASS attribute
(line 629), one single list shared by all instances, which is why it is
threaded here as a separate value next to the per-instance block list. -/
def ballot_blockchain_add_block (shared : List BallotClaimTicket)
    (n : NodeState) (txs : List Transaction) :
    List BallotClaimTicket × NodeState :=
  match n.data with
  | .computer ballot ownBlocks =>
    (shared ++ txs.filterMap (·.ballot_claim_ticket),
     { n with data := .computer ballot (ownBlocks ++ [txs]) })
  | _ => (shared, n)

/-- The claim ticket ids committed in the OWN chain history of a computer
node: the tickets attached to the transactions of its own blocks. -/
def ownChainTicketIds (n : NodeState) : List String :=
  match n.data with
  | .computer _ ownBlocks =>
    (ownBlocks.flatten.filterMap (·.ballot_claim_ticket)).map (·.id)
  | _ => []

/-- Modelled from the spec: Transaction.get_unique_repr is called at
src/consensus.py line 78 but defined nowhere under src.  The spec defines
the content identity of a transaction as the same voter for a VoterTx and
the same claim-ticket id for a BallotTx, and conflict resolution keys on
it. -/
def get_unique_repr (tx : Transaction) : String :=
  match tx.content, tx.ballot_claim_ticket with
  | .voter v, _ => "voter:" ++ v.id ++ ":" ++ v.name
  | .ballot _, some t => "ticket:" ++ t.id
  | .ballot b, none => "ballot:" ++ b.get_signature_contents

/-- Per-round state of a ConsensusParticipant (src/consensus.py lines
22-26): the node with its pools, the transaction tally and rejection
reasons dicts (identity-keyed, insertion ordered), and the committed
blocks of its blockchain as transaction lists (the blockchain itself is
appended to by finalize via add_block). -/
structure ConsensusState where
  node : NodeState
  transaction_tally : List (Transaction × Nat)
  transaction_rejection_reasons : List (Transaction × VErr)
  chainBlocks : List (List Transaction)
deriving DecidableEq, Repr

/-- Loop state of validate_transactions_for_consensus: the local
transaction_reprs dict plus the two instance dicts it writes. -/
structure VTCState where
  reprs : List (String × Transaction)
  tally : List (Transaction × Nat)
  reasons : List (Transaction × VErr)
deriving DecidableEq, Repr

/-- One iteration of the loop of validate_transactions_for_consensus
(src/consensus.py lines 70-89).  Inside the try block: content validation
runs only for transactions not in the verified pool; then the unique repr
is computed and compared against transaction_reprs, raising when an entry
with the same repr and an earlier timestamp exists; then the tally is set
to 1.  Any exception lands in the except branch: the rejection reason is
recorded and the tally set to 0. -/
def stepVTC (shared : List BallotClaimTicket) (n : NodeState) (st : VTCState)
    (tx : Transaction) : VTCState :=
  let contentCheck : Except VErr Unit :=
    if txMem tx n.verified_transactions then Except.ok ()
    else validateTransaction shared n tx
  match contentCheck with
  | .error e =>
    { st with reasons := dictSetTx st.reasons tx e,
              tally := dictSetTx st.tally tx 0 }
  | .ok _ =>
    let r := get_unique_repr tx
    match dictGetStr st.reprs r with
    | some conflicting =>
      if conflicting.timeRank < tx.timeRank then
        { st with
            reasons := dictSetTx st.reasons tx
              (.conflictingTransaction "Conflicting transaction with earlier timestamp found"),
            tally := dictSetTx st.tally tx 0 }
      else
        { st with tally := dictSetTx st.tally tx 1 }
    | none =>
      { st with reprs := dictSetStr st.reprs r tx,
                tally := dictSetTx st.tally tx 1 }

/-- ConsensusParticipant.validate_transactions_for_consensus
(src/consensus.py lines 62-89): folds stepVTC over the incoming broadcast,
starting from an empty local transaction_reprs and the instance tally and
reasons dicts. -/
def validate_transactions_for_consensus (shared : List BallotClaimTicket)
    (cs : ConsensusState) (transactions : List Transaction) : ConsensusState :=
  let res := transactions.foldl (stepVTC shared cs.node)
    ⟨[], cs.transaction_tally, cs.transaction_rejection_reasons⟩
  { cs with transaction_tally := res.tally,
            transaction_rejection_reasons := res.reasons }

/-- ConsensusParticipant.aggregate_transaction_tally (src/consensus.py
lines 96-99): adds the incoming tally to the own tally for transactions
already known to the recipient; unknown transactions are not added. -/
def aggregate_transaction_tally (cs : ConsensusState)
    (incoming : List (Transaction × Nat)) : ConsensusState :=
  { cs with transaction_tally :=
      cs.transaction_tally.map (fun e =>
        (e.1, e.2 + ((dictGetTx incoming e.1).getD 0))) }

/-- The tally test of finalize_consensus_round (src/consensus.py line 110):
tally / network_size >= MINIMUM_AGREEMENT_PCT, written in the
cross-multiplied integer form 10 * tally >= 8 * network_size, which is
exactly equivalent over the rationals for the positive network sizes of
every call site (meetsAgreementPct_iff below) and agrees with the Python
float comparison in the reachable integer ranges (see the header note on
machine arithmetic). -/
def meetsAgreementPct (tally : Nat) (network_size : Nat) : Bool :=
  decide (10 * tally ≥ 8 * network_size)

/-- The executable threshold test coincides with the rational inequality
tally / network_size >= MINIMUM_AGREEMENT_PCT whenever the network size is
positive (it always is: the node itself is counted). -/
lemma meetsAgreementPct_iff (tally network_size : Nat) (h : 0 < network_size) :
    meetsAgreementPct tally network_size = true ↔
      (tally : ℚ) / (network_size : ℚ) ≥ MINIMUM_AGREEMENT_PCT := by
  unfold meetsAgreementPct MINIMUM_AGREEMENT_PCT
  rw [decide_eq_true_iff, ge_iff_le, ge_iff_le, div_le_div_iff₀ (by norm_num)
    (by exact_mod_cast h)]
  constructor
  · intro hle
    have : (8 * network_size : ℚ) ≤ (10 * tally : ℚ) := by exact_mod_cast hle
    linarith
  · intro hle
    have : (8 * network_size : ℚ) ≤ (10 * tally : ℚ) := by linarith
    exact_mod_cast this

/-- The approved transactions of a round (src/consensus.py lines 107-111):
the tallied transactions whose tally over network_size reaches the
threshold, where network_size is len(self.node_mapping.values()) + 1, the
full peer directory plus the node itself.  Python last_round_approvals is a
set; its iteration order is modelled as the insertion order of the tally
dict. -/
def approved_transactions (cs : ConsensusState) : List Transaction :=
  ((cs.transaction_tally.filter
      (fun e => meetsAgreementPct e.2 (cs.node.node_mapping.length + 1))).map (·.1))

/-- ConsensusParticipant.finalize_consensus_round (src/consensus.py lines
101-124): partitions the tallied transactions by the agreement test with
denominator len(node_mapping) + 1, appends a block holding
list(last_round_approvals) to the blockchain, resets the tally, and removes
the approved transactions from the verified and rejected pools. -/
def finalize_consensus_round (cs : ConsensusState) : ConsensusState :=
  let approved := approved_transactions cs
  { cs with
      chainBlocks := cs.chainBlocks ++ [approved],
      transaction_tally := [],
      node := { cs.node with
        verified_transactions :=
          approved.foldl setRemove cs.node.verified_transactions,
        rejected_transactions :=
          approved.foldl setRemove cs.node.rejected_transactions } }

/-- ConsensusParticipant.get_nodes_in_agreement (src/consensus.py lines
28-38): the peers of the directory whose current block hash equals the own
current block hash.  Peers are given as pairs of key and head hash. -/
def get_nodes_in_agreement (ownHash : String) (peers : List (Nat × String)) :
    List Nat :=
  (peers.filter (fun p => p.2 == ownHash)).map (·.1)

/-- Hex rendering of a signature (tx.signature.hex() in the block hash),
modelled by an injective rendering of the ideal signature. -/
def sigHex (s : Sig) : String :=
  "sh<" ++ toString s.pub ++ "|" ++ s.msg ++ ">"

/-- Python str of a boolean (str(self.genesis)). -/
def pyStrBool (b : Bool) : String :=
  if b then "True" else "False"

/-- A Block (src/base.py lines 530-548): the transaction list in the order
it was passed to the constructor, the issuing node, the hash of the
predecessor when there is one, the genesis flag and the minute-formatted
construction time.  hash and header are derived below. -/
structure Block where
  transactions : List Transaction
  node : Nat
  previous_hash : Option String
  genesis : Bool
  timeStr : String
deriving DecidableEq, Repr

/-- Block.get_signature_contents (src/base.py lines 553-564): the hex of
each transaction signature in block order, then the predecessor hash when
present, then the minute timestamp and the genesis flag, joined by
colons. -/
def Block.get_signature_contents (b : Block) : String :=
  String.intercalate ":"
    ((b.transactions.map (fun tx => sigHex tx.signature))
      ++ (match b.previous_hash with | some h => [h] | none => [])
      ++ [b.timeStr, pyStrBool b.genesis])

/-- Block.hash (src/base.py line 547): the signature contents string. -/
def Block.hash (b : Block) : String :=
  b.get_signature_contents

/-- Block.header (src/base.py line 548): the issuing node signature over
the hash. -/
def Block.header (b : Block) : Sig :=
  sign b.node b.hash

/-- Block construction by Blockchain.add_block (src/base.py lines 604-607):
a non-genesis block on top of the current block. -/
def mkBlock (transactions : List Transaction) (node : Nat)
    (previousHash : String) (timeStr : String) : Block :=
  { transactions := transactions, node := node,
    previous_hash := some previousHash, genesis := false, timeStr := timeStr }

/-- Lexicographic order on character lists by code point (the byte order
of the ASCII strings compared here). -/
def charsLe : List Char → List Char → Bool
  | [], _ => true
  | _ :: _, [] => false
  | a :: as, b :: bs =>
    if a.toNat < b.toNat then true
    else if b.toNat < a.toNat then false
    else charsLe as bs

/-- Byte order on the hex renderings of signatures. -/
def strLe (a b : String) : Bool :=
  charsLe a.data b.data

/-- Is a transaction list sorted by the signature bytes used in the block
hash? -/
def sortedBySignature : List Transaction → Bool
  | [] => true
  | [_] => true
  | t1 :: t2 :: rest =>
    strLe (sigHex t1.signature) (sigHex t2.signature)
      && sortedBySignature (t2 :: rest)

/-- Inner dict of a ballot block state: candidate name to vote count. -/
abbrev InnerCounts := List (String × Nat)

/-- Heap of inner dict objects, addressed by allocation index.  Python
copy.copy on the outer state dict duplicates only the outer mapping; the
inner dicts stay shared references, which this heap makes explicit. -/
abbrev Heap := List (Nat × InnerCounts)

/-- The observable part of a BallotBlock for the mutation analysis: the
outer state dict (position to inner dict reference) and the transaction
list.  hash and header are strings computed at construction and never
reassigned; they are covered by the Block model above. -/
structure HBlock where
  stateRefs : List (String × Nat)
  transactions : List Transaction
deriving DecidableEq, Repr

/-- Heap read of one inner dict. -/
def heapGet (h : Heap) (addr : Nat) : InnerCounts :=
  ((h.find? (fun e => e.1 == addr)).map (·.2)).getD []

/-- self.state[position][selection] += 1 inside the try of
BallotBlock.apply_transactions (src/base.py lines 587-591): increment the
count behind the reference; a missing position or missing candidate raises
KeyError, which is caught and skipped. -/
def heapIncr (h : Heap) (refs : List (String × Nat)) (position : String)
    (selection : String) : Heap :=
  match dictGetStr refs position with
  | none => h
  | some addr =>
    match dictGetStr (heapGet h addr) selection with
    | none => h
    | some _ =>
      h.map (fun e =>
        if e.1 == addr then (e.1, dictSetStr e.2 selection ((dictGetStr e.2 selection).getD 0 + 1)) else e)

/-- Python list indexing choices[n] used to turn a selected index into a
candidate name; an out-of-range index raises IndexError, which nothing in
apply_transactions catches, so block construction aborts (none). -/
def pyListGet (l : List String) (i : Int) : Option String :=
  if h : 0 ≤ i ∧ i < (l.length : Int) then
    some (l.get ⟨i.toNat, by omega⟩)
  else if h2 : -(l.length : Int) ≤ i ∧ i < 0 then
    some (l.get ⟨(i + l.length).toNat, by omega⟩)
  else none

/-- BallotBlock.apply_transactions for one transaction (src/base.py lines
580-591): for each position of the content ballot, map the selected
indices through the choices list (IndexError aborts) and increment the
state count of each selected candidate through the shared inner dict. -/
def apply_ballot_tx (h : Heap) (refs : List (String × Nat))
    (tx : Transaction) : Option Heap :=
  match tx.content with
  | .voter _ => none
  | .ballot b =>
    b.items.foldlM (fun hAcc (entry : String × BallotItem) => do
      let selections ← entry.2.selected.mapM (pyListGet entry.2.choices)
      pure (selections.foldl (fun hh sel => heapIncr hh refs entry.1 sel) hAcc)) h

/-- BallotBlock.apply_transactions over the full transaction list. -/
def apply_ballot_block (h : Heap) (refs : List (String × Nat))
    (txs : List Transaction) : Option Heap :=
  txs.foldlM (fun hAcc tx => apply_ballot_tx hAcc refs tx) h

/-- BallotBlockchain.create_genesis_block (src/base.py lines 632-641): one
fresh inner dict per template position, every candidate count zero. -/
def ballot_genesis (ballot : Ballot) : Heap × HBlock :=
  let init : Heap × List (String × Nat) :=
    ballot.items.foldl (fun acc (entry : String × BallotItem) =>
      let addr := acc.1.length
      (acc.1 ++ [(addr, entry.2.choices.map (fun c => (c, 0)))],
       acc.2 ++ [(entry.1, addr)])) ([], [])
  (init.1, { stateRefs := init.2, transactions := [] })

/-- Block.__init__ for a non-genesis BallotBlock (src/base.py lines
533-548 with lines 580-591): self.state = copy(previous_block.state) is a
SHALLOW copy, so the new outer dict holds the same inner dict references
as the predecessor, and apply_transactions then increments through those
shared references. -/
def add_ballot_block (h : Heap) (prev : HBlock) (txs : List Transaction) :
    Option (Heap × HBlock) :=
  let refs := prev.stateRefs
  (apply_ballot_block h refs txs).map
    (fun h2 => (h2, { stateRefs := refs, transactions := txs }))

/-- The state mapping of a block as observed through the heap: position to
the current contents of the referenced inner dict. -/
def materialize (h : Heap) (refs : List (String × Nat)) :
    List (String × InnerCounts) :=
  refs.map (fun e => (e.1, heapGet h e.2))

/-- VoterBlockchain.create_genesis_block (src/base.py lines 618-624): the
genesis state maps each roll voter id to its allotted claim tickets (a
flat dict of Python ints, so later shallow copies are value copies). -/
def voter_genesis_state (voter_roll : List Voter) : List (String × Int) :=
  voter_roll.foldl (fun st v => dictSetStr st v.id (v.num_claim_tickets : Int)) []

/-- One step of VoterBlock.apply_transactions (src/base.py lines 569-575):
self.state[voter.id] -= 1; a voter id absent from the state dict raises
KeyError (none), as does content that is not a Voter. -/
def apply_voter_tx (st : List (String × Int)) (tx : Transaction) :
    Option (List (String × Int)) :=
  match tx.content with
  | .ballot _ => none
  | .voter v =>
    match dictGetStr st v.id with
    | none => none
    | some x => some (dictSetStr st v.id (x - 1))

/-- VoterBlock.apply_transactions over a block: each transaction decrements
the count of its voter (the non-genesis block starts from a shallow copy of
the predecessor state, which for this flat int dict is a value copy). -/
def apply_voter_block (st : List (String × Int)) (txs : List Transaction) :
    Option (List (String × Int)) :=
  txs.foldlM apply_voter_tx st

/-- The head state after committing a sequence of blocks (each given by its
transaction list) on top of a starting state. -/
def apply_voter_chain (st : List (String × Int)) (blocks : List (List Transaction)) :
    Option (List (String × Int)) :=
  blocks.foldlM apply_voter_block st

/-- The number of committed VoterTxs referencing a given voter id across a
chain of blocks. -/
def countVoterTxs (voterId : String) (blocks : List (List Transaction)) : Nat :=
  (blocks.flatten.filter (fun tx => txVoterId tx == some voterId)).length

/-- VoterAuthenticationBooth.authenticate_voter (src/base.py lines
240-243): the voter argument is truthy and its id is a key of the
voter roll index. -/
def authenticate_voter (voter_roll : List Voter) (voter : Option Voter) : Bool :=
  match voter with
  | none => false
  | some v => voter_roll.any (fun w => w.id == v.id)

/-- A committee world for ticket issuance: the issuing booth and its
peers (the nodes of its node_mapping). -/
structure World where
  issuer : NodeState
  peers : List NodeState
deriving DecidableEq, Repr

/-- Failure modes of generate_ballot_claim_ticket. -/
inductive GenError where
  | unknownVoter (msg : String)
  | notEnoughBallotClaimTickets (msg : String)
  | typeError
deriving DecidableEq, Repr

/-- VoterAuthenticationBooth.create_transaction (src/base.py lines
293-296): build the VoterTransaction, add it to the own verified pool and
broadcast it, which calls add_transaction on every peer
(broadcast_transactions, lines 66-70). -/
def create_transaction (w : World) (v : Voter) (oid : Nat)
    (timeStr : String) (timeRank : Nat) : World :=
  let tx := mkVoterTransaction oid v w.issuer.key timeStr timeRank
  { issuer := { w.issuer with
      verified_transactions := setAdd w.issuer.verified_transactions tx },
    peers := w.peers.map (fun p => (add_transaction [] p tx).2) }

/-- VoterAuthenticationBooth.generate_ballot_claim_ticket (src/base.py
lines 273-291): authenticate the voter against the static roll (UnknownVoter
otherwise), check the remaining tickets (NotEnoughBallotClaimTickets
otherwise), then create the ticket, emit and broadcast the
VoterTransaction, and return the ticket.  The except branch only logs and
re-raises, so a failing call leaves every structure untouched.  The fresh
random ticket id, the fresh transaction object id and the timestamps are
inputs of the model.  A non-booth receiver returns a TypeError without
effect. -/
def generate_ballot_claim_ticket (w : World) (voter : Option Voter)
    (freshTicketId : String) (freshOid : Nat) (timeStr : String)
    (timeRank : Nat) : Except GenError BallotClaimTicket × World :=
  match w.issuer.data with
  | .booth voter_roll _ =>
    if authenticate_voter voter_roll voter then
      match voter with
      | none => (.error (.unknownVoter "Voter is not on voter roll"), w)
      | some v =>
        match voter_has_claim_tickets w.issuer v.id with
        | none => (.error .typeError, w)
        | some false =>
          (.error (.notEnoughBallotClaimTickets
            ("Voter " ++ v.name ++ " (ID " ++ v.id ++ ") does not have enough claim tickets")), w)
        | some true =>
          let ticket : BallotClaimTicket :=
            { id := freshTicketId, node := w.issuer.key,
              signature := sign w.issuer.key freshTicketId }
          (.ok ticket, create_transaction w v freshOid timeStr timeRank)
    else
      match voter with
      | some v => (.error (.unknownVoter (v.name ++ " not on voter roll")), w)
      | none => (.error (.unknownVoter "Voter is not on voter roll"), w)
  | _ => (.error .typeError, w)

/-- A roll voter used by the concrete scenarios. -/
def voterAlice : Voter := { id := "1", name := "alice", num_claim_tickets := 3 }

/-- A second roll voter used by the concrete scenarios. -/
def voterBob : Voter := { id := "2", name := "bob", num_claim_tickets := 1 }

/-- A booth replica for the admission scenarios: key 10, one recognized
peer with key 20, voter alice on the roll with 3 tickets committed. -/
def c1booth : NodeState :=
  { key := 10, node_mapping := [20],
    verified_transactions := [], rejected_transactions := [],
    data := .booth [voterAlice] [("1", 3)] }

/-- A VoterTransaction from the recognized peer 20 whose signature bytes do
not match the canonical signature contents (the signature was produced over
the string garbage). -/
def c1tx : Transaction :=
  { oid := 1, content := .voter voterAlice, node := 20,
    previous_state := NOT_RETRIEVED_BALLOT, new_state := RETRIEVED_BALLOT,
    timeStr := "2020-11-03 10:00", timeRank := 0,
    ballot_claim_ticket := none, signature := sign 20 "garbage" }

/-- Claim C1: the claim states that add_transaction rejects a transaction
from a recognized node whenever signature verification of its canonical
signature contents under the issuer key fails.  The code does not:
utils.verify_signature returns False instead of raising, and
Transaction.validate_transaction discards the boolean and only catches an
InvalidSignature that is never raised, so the forged transaction is
admitted to the verified pool and add_transaction returns True. -/
theorem claim1_forged_signature_admitted :
    verify_signature c1tx.get_signature_contents c1tx.signature c1tx.node = false ∧
    is_node_in_network c1booth c1tx.node = true ∧
    (add_transaction [] c1booth c1tx).1 = true ∧
    txMem c1tx (add_transaction [] c1booth c1tx).2.verified_transactions = true ∧
    txMem c1tx (add_transaction [] c1booth c1tx).2.rejected_transactions = false := by
  decide

/-- The ballot template of the tabulator scenarios: one position with two
choices and max_choices = 1. -/
def c6tmpl : Ballot :=
  { election := "E",
    items := [("President",
      { description := "d", choices := ["A", "B"], max_choices := 1, selected := [] })] }

/-- A filled ballot with two selections at a position whose maximum is 1
(both indices in range). -/
def c6over : Ballot :=
  { election := "E",
    items := [("President",
      { description := "d", choices := ["A", "B"], max_choices := 1, selected := [0, 1] })] }

/-- A filled ballot with a selection index beyond the choice count. -/
def c6oob : Ballot :=
  { election := "E",
    items := [("President",
      { description := "d", choices := ["A", "B"], max_choices := 1, selected := [5] })] }

/-- A filled ballot with a position that is not on the template. -/
def c6extra : Ballot :=
  { election := "E",
    items := [("FakePosition",
      { description := "x", choices := ["Z"], max_choices := 1, selected := [0] })] }

/-- Claim C6: the claim says validate_ballot raises InvalidBallot exactly
for a foreign position, an out-of-range selection index, or more selections
than the position maximum.  Evaluating the code: a ballot with two
selections at a max_choices = 1 position passes validation (max_choices is
never consulted), an out-of-range index escapes as an uncaught IndexError
rather than InvalidBallot (the except KeyError branch cannot fire on a
list), and only the foreign-position case raises InvalidBallot as
described. -/
theorem claim6_ballot_validation_divergence :
    validate_ballot c6tmpl c6over = BallotCheck.ok ∧
    validate_ballot c6tmpl c6oob = BallotCheck.indexError ∧
    validate_ballot c6tmpl c6extra =
      BallotCheck.invalidBallot "Position FakePosition is not part of original ballot template" := by
  decide

/-- A claim ticket used in the block-mutation scenario. -/
def c8ticket : BallotClaimTicket :=
  { id := "t0", node := 30, signature := sign 30 "t0" }

/-- The filled ballot committed in the block-mutation scenario: candidate A
selected at the only position. -/
def c8filled : Ballot :=
  { election := "E",
    items := [("President",
      { description := "d", choices := ["A", "B"], max_choices := 1, selected := [0] })] }

/-- The BallotTransaction committed in the block-mutation scenario. -/
def c8tx : Transaction :=
  mkBallotTransaction 7 c8ticket c8filled 30 "2020-11-03 10:01" 1

/-- Claim C8: the claim says a block already in the chain is left unchanged
by constructing and appending a later block.  Evaluating the code: the
genesis state of a tabulator chain reads all zero before the append, and
after appending one block containing one ballot transaction the state
mapping OF THE GENESIS BLOCK reads count 1 for candidate A, because
Block.__init__ shallow-copies the predecessor state dict and
apply_transactions increments through the shared inner dicts.  (The hash,
header and transaction list of the genesis block are unaffected: they are
plain strings and lists never reassigned.) -/
theorem claim8_predecessor_state_mutated :
    materialize (ballot_genesis c6tmpl).1 (ballot_genesis c6tmpl).2.stateRefs
      = [("President", [("A", 0), ("B", 0)])] ∧
    (add_ballot_block (ballot_genesis c6tmpl).1 (ballot_genesis c6tmpl).2 [c8tx]).map
        (fun r => materialize r.1 (ballot_genesis c6tmpl).2.stateRefs)
      = some [("President", [("A", 1), ("B", 0)])] := by
  decide

/-- The shared claim ticket of the double-spend scenario, issued by the
booth with key 10. -/
def c5ticket : BallotClaimTicket :=
  { id := "t1", node := 10, signature := sign 10 "t1" }

/-- Tabulator replica A (key 40), empty chain beyond genesis. -/
def c5A : NodeState :=
  { key := 40, node_mapping := [41],
    verified_transactions := [], rejected_transactions := [],
    data := .computer c6tmpl [] }

/-- Tabulator replica B (key 41), empty chain beyond genesis. -/
def c5B : NodeState :=
  { key := 41, node_mapping := [40],
    verified_transactions := [], rejected_transactions := [],
    data := .computer c6tmpl [] }

/-- The first spend of ticket t1, committed by replica A. -/
def c5tx1 : Transaction :=
  mkBallotTransaction 11 c5ticket c8filled 40 "2020-11-03 10:02" 2

/-- The second spend of ticket t1, presented to replica B. -/
def c5tx2 : Transaction :=
  mkBallotTransaction 12 c5ticket c8filled 41 "2020-11-03 10:03" 3

/-- Claim C5: the claim says a Tabulator raises UsedClaimTicket exactly
when the ticket id is already committed in that node OWN blockchain
history.  Evaluating the code: after replica A commits a block spending
ticket t1, replica B rejects a transaction carrying ticket id t1 with
UsedBallotClaimTicket even though the committed history of B contains no
ticket at all, because BallotBlockchain.ballot_claim_tickets is a class
attribute shared by every instance. -/
theorem claim5_shared_ticket_registry :
    (ballot_blockchain_add_block [] c5A [c5tx1]).1 = [c5ticket] ∧
    ownChainTicketIds c5B = [] ∧
    validateTransaction (ballot_blockchain_add_block [] c5A [c5tx1]).1 c5B c5tx2
      = Except.error (.usedBallotClaimTicket
          "Ballot claim id t1 attempted to be used multiple times") := by
  decide

/-- Python set.add of an object already in the set is a no-op. -/
lemma setAdd_of_mem {pool : List Transaction} {tx : Transaction}
    (h : txMem tx pool = true) : setAdd pool tx = pool := by
  simp [setAdd, h]

/-- Python set.add of a fresh object appends it. -/
lemma setAdd_of_not_mem {pool : List Transaction} {tx : Transaction}
    (h : txMem tx pool = false) : setAdd pool tx = pool ++ [tx] := by
  simp [setAdd, h]

/-- On a base Node, validate_transaction is Transaction.validate_transaction
and always succeeds. -/
lemma validateTransaction_plain (shared : List BallotClaimTicket)
    (n : NodeState) (tx : Transaction) (h : n.data = NodeData.plain) :
    validateTransaction shared n tx = Except.ok () := by
  unfold validateTransaction
  rw [h]

/-- A transaction identical to the transaction of the admission scenario
except for its object identity: same content, same issuer, same timestamp,
hence the same signature. -/
def c4t1 : Transaction :=
  mkVoterTransaction 41 voterAlice 10 "2020-11-03 10:00" 0

/-- The distinct object with the equal signature. -/
def c4t2 : Transaction :=
  mkVoterTransaction 42 voterAlice 10 "2020-11-03 10:00" 0

/-- A base Node holding c4t1 in its verified pool. -/
def c4plain : NodeState :=
  { key := 10, node_mapping := [],
    verified_transactions := [c4t1], rejected_transactions := [],
    data := .plain }

/-- Claim C4 counterexample: two transactions with equal signatures that
are not equal (Transaction defines neither __eq__ nor __hash__, so equality
is object identity), and re-admitting the equal-signature distinct object
changes the verified pool, refuting the claimed no-op. -/
theorem claim4_counterexample :
    c4t1.signature = c4t2.signature ∧ c4t1 ≠ c4t2 ∧
    txMem c4t1 c4plain.verified_transactions = true ∧
    (add_transaction [] c4plain c4t2).2.verified_transactions = [c4t1, c4t2] := by
  decide

/-- Claim C4 (amended): transaction equality and the hash key are object
identity, so signature equality does not make two transactions equal; on a
base Node, re-calling add_transaction with the very same object already in
the verified pool returns True and leaves the node unchanged, while a
distinct object with an equal signature is admitted as a new pool
element. -/
theorem claim4_identity_admission (shared : List BallotClaimTicket)
    (n : NodeState) (t1 t2 : Transaction)
    (hplain : n.data = NodeData.plain)
    (h1 : txMem t1 n.verified_transactions = true)
    (hr1 : is_node_in_network n t1.node = true)
    (hr2 : is_node_in_network n t2.node = true)
    (h2 : txMem t2 n.verified_transactions = false)
    (_hsig : t1.signature = t2.signature) :
    add_transaction shared n t1 = (true, n) ∧
    add_transaction shared n t2 =
      (true, { n with verified_transactions := n.verified_transactions ++ [t2] }) := by
  have v1 := validateTransaction_plain shared n t1 hplain
  have v2 := validateTransaction_plain shared n t2 hplain
  constructor
  · simp only [add_transaction, hr1, if_true, v1, setAdd_of_mem h1]
  · simp only [add_transaction, hr2, if_true, v2, setAdd_of_not_mem h2]

/-- Claim C4 witness: the amended admission behavior evaluated at the
concrete node and transactions. -/
theorem claim4_identity_admission_witness :
    add_transaction [] c4plain c4t1 = (true, c4plain) ∧
    add_transaction [] c4plain c4t2 =
      (true, { c4plain with
        verified_transactions := c4plain.verified_transactions ++ [c4t2] }) :=
  claim4_identity_admission [] c4plain c4t1 c4t2 (by decide) (by decide)
    (by decide) (by decide) (by decide) (by decide)

/-- Removing an object with a different identity does not change
membership of a transaction in a pool. -/
lemma txMem_setRemove_ne {pool : List Transaction} {a tx : Transaction}
    (h : ¬ a.oid = tx.oid) : txMem tx (setRemove pool a) = txMem tx pool := by
  rw [Bool.eq_iff_iff]
  simp only [txMem, setRemove, List.any_eq_true, List.mem_filter,
    Bool.not_eq_eq_eq_not, Bool.not_false, beq_iff_eq, beq_eq_false_iff_ne,
    ne_eq, Bool.not_true]
  constructor
  · rintro ⟨x, ⟨hx, _⟩, hox⟩
    exact ⟨x, hx, hox⟩
  · rintro ⟨x, hx, hox⟩
    refine ⟨x, ⟨hx, ?_⟩, hox⟩
    intro hxa
    exact h (hxa ▸ hox ▸ rfl)

/-- Removing a list of objects, none sharing the identity of tx, preserves
membership of tx. -/
lemma txMem_foldl_setRemove {l : List Transaction} {tx : Transaction} :
    ∀ {pool : List Transaction}, (∀ a ∈ l, ¬ a.oid = tx.oid) →
    txMem tx (l.foldl setRemove pool) = txMem tx pool := by
  induction l with
  | nil => intro pool _; rfl
  | cons a rest ih =>
    intro pool h
    have h1 : ¬ a.oid = tx.oid := h a (List.mem_cons_self a rest)
    have h2 : ∀ b ∈ rest, ¬ b.oid = tx.oid := fun b hb => h b (List.mem_cons_of_mem a hb)
    calc txMem tx ((a :: rest).foldl setRemove pool)
        = txMem tx (rest.foldl setRemove (setRemove pool a)) := rfl
      _ = txMem tx (setRemove pool a) := ih h2
      _ = txMem tx pool := txMem_setRemove_ne h1

/-- Entries of an identity-keyed tally with the same object identity are
the same entry when the key identities are distinct. -/
lemma tally_entry_unique {d : List (Transaction × Nat)}
    (h : (d.map (fun e => e.1.oid)).Nodup) {a b : Transaction × Nat}
    (ha : a ∈ d) (hb : b ∈ d) (hoid : a.1.oid = b.1.oid) : a = b :=
  List.inj_on_of_nodup_map h ha hb hoid

/-- The VoterTransaction of the threshold scenario, held by the tallying
node in its own verified pool. -/
def c2tx : Transaction :=
  mkVoterTransaction 21 voterAlice 10 "2020-11-03 10:05" 4

/-- The tallying booth: four peers in its directory, the transaction in
its verified pool. -/
def c2node : NodeState :=
  { key := 10, node_mapping := [1, 2, 3, 4],
    verified_transactions := [c2tx], rejected_transactions := [],
    data := .booth [voterAlice] [("1", 3)] }

/-- The round state before phase B. -/
def c2cs0 : ConsensusState :=
  { node := c2node, transaction_tally := [],
    transaction_rejection_reasons := [], chainBlocks := [] }

/-- Phase A of the scenario: of the four directory peers, only peers 1 and
2 share the head hash, so the peer set has two members. -/
def c2peersA : List Nat :=
  get_nodes_in_agreement "h" [(1, "h"), (2, "h"), (3, "g"), (4, "g")]

/-- The round state after phase B (own vote) and phase C (tally
aggregation from the two agreeing peers): the transaction carries tally
3. -/
def c2cs3 : ConsensusState :=
  aggregate_transaction_tally
    (aggregate_transaction_tally
      (validate_transactions_for_consensus [] c2cs0 [c2tx]) [(c2tx, 1)])
    [(c2tx, 1)]

/-- Claim C2 counterexample: with a phase-A peer set of two peers out of a
four-peer directory and a tally of 3, the ratio over the claimed
denominator (peer set size plus one = 3) is 1 and meets the threshold, yet
finalize_consensus_round commits an empty block and leaves the transaction
in the verified pool, because the code divides by the full directory size
plus one (= 5). -/
theorem claim2_counterexample :
    c2peersA = [1, 2] ∧
    dictGetTx c2cs3.transaction_tally c2tx = some 3 ∧
    meetsAgreementPct 3 (c2peersA.length + 1) = true ∧
    (finalize_consensus_round c2cs3).chainBlocks = [[]] ∧
    txMem c2tx (finalize_consensus_round c2cs3).node.verified_transactions = true := by
  decide

/-- Claim C2 (amended): a tallied transaction is committed into the newly
appended block iff its tally over (full peer directory size + 1) meets
MINIMUM_AGREEMENT_PCT — the denominator is the network size, independent
of the phase-A peer set — and every tallied transaction that misses the
threshold keeps exactly the verified and rejected pool memberships it had
before the round was finalized. -/
theorem claim2_commit_threshold (cs : ConsensusState)
    (hnodup : (cs.transaction_tally.map (fun e => e.1.oid)).Nodup) :
    (finalize_consensus_round cs).chainBlocks
      = cs.chainBlocks ++ [approved_transactions cs] ∧
    (∀ tx tally, (tx, tally) ∈ cs.transaction_tally →
      (tx ∈ approved_transactions cs ↔
        meetsAgreementPct tally (cs.node.node_mapping.length + 1) = true)) ∧
    (∀ tx tally, (tx, tally) ∈ cs.transaction_tally →
      meetsAgreementPct tally (cs.node.node_mapping.length + 1) = false →
      txMem tx (finalize_consensus_round cs).node.verified_transactions
        = txMem tx cs.node.verified_transactions ∧
      txMem tx (finalize_consensus_round cs).node.rejected_transactions
        = txMem tx cs.node.rejected_transactions) := by
  refine ⟨rfl, ?_, ?_⟩
  · intro tx tally hmem
    constructor
    · intro happ
      rcases List.mem_map.mp happ with ⟨e, hef, heq⟩
      have hefil := List.mem_filter.mp hef
      have : e = (tx, tally) := by
        apply tally_entry_unique hnodup hefil.1 hmem
        rw [heq]
      rw [this] at hefil
      exact hefil.2
    · intro hth
      exact List.mem_map_of_mem Prod.fst
        (List.mem_filter.mpr ⟨hmem, hth⟩)
  · intro tx tally hmem hfail
    have hnot : ∀ a ∈ approved_transactions cs, ¬ a.oid = tx.oid := by
      intro a ha hoid
      rcases List.mem_map.mp ha with ⟨e, hef, heq⟩
      have hefil := List.mem_filter.mp hef
      have : e = (tx, tally) := by
        apply tally_entry_unique hnodup hefil.1 hmem
        rw [heq]; exact hoid
      rw [this] at hefil
      rw [hfail] at hefil
      exact Bool.noConfusion hefil.2
    exact ⟨txMem_foldl_setRemove hnot, txMem_foldl_setRemove hnot⟩

/-- Claim C2 witness: the amended commit rule evaluated at the concrete
round: tally 3 over network size 5 misses the threshold and the
transaction is not committed. -/
theorem claim2_commit_threshold_witness :
    (finalize_consensus_round c2cs3).chainBlocks
      = c2cs3.chainBlocks ++ [approved_transactions c2cs3] ∧
    (c2tx ∈ approved_transactions c2cs3 ↔
      meetsAgreementPct 3 (c2cs3.node.node_mapping.length + 1) = true) := by
  have h := claim2_commit_threshold c2cs3 (by decide)
  exact ⟨h.1, h.2.1 c2tx 3 (by decide)⟩

/-- The transaction of the conflict scenario that sits in the recipient
verified pool: voter alice, the later timestamp. -/
def c3tx2 : Transaction :=
  mkVoterTransaction 32 voterAlice 10 "2020-11-03 10:06" 5

/-- The conflicting broadcast transaction: same voter, earlier timestamp,
valid on its own and not in the recipient pool. -/
def c3tx1 : Transaction :=
  mkVoterTransaction 31 voterAlice 20 "2020-11-03 10:04" 3

/-- The recipient booth of the conflict scenario: c3tx2 is in its verified
pool and alice has tickets to spare, so c3tx1 passes content validation. -/
def c3node : NodeState :=
  { key := 10, node_mapping := [20],
    verified_transactions := [c3tx2], rejected_transactions := [],
    data := .booth [voterAlice] [("1", 5)] }

/-- The round state of the conflict scenario before phase B. -/
def c3cs : ConsensusState :=
  { node := c3node, transaction_tally := [],
    transaction_rejection_reasons := [], chainBlocks := [] }

/-- The round state after receiving the broadcast containing both
transactions, earlier-timestamped first. -/
def c3res : ConsensusState :=
  validate_transactions_for_consensus [] c3cs [c3tx1, c3tx2]

/-- Claim C3 counterexample: a transaction that is a member of the
recipient verified pool is tallied 0 with a rejection reason, because an
earlier-timestamped transaction with the same unique representation
appeared earlier in the same broadcast and the conflict check runs even
for verified-pool members. -/
theorem claim3_counterexample :
    txMem c3tx2 c3node.verified_transactions = true ∧
    dictGetTx c3res.transaction_tally c3tx2 = some 0 ∧
    dictGetTx c3res.transaction_rejection_reasons c3tx2 =
      some (.conflictingTransaction
        "Conflicting transaction with earlier timestamp found") := by
  decide

/-- Claim C3 (amended): for a transaction already in the recipient
verified pool, content validation is skipped (the step outcome does not
depend on validateTransaction at all), and the tally is set to 1 — unless
an earlier transaction of the same broadcast with the same unique
representation and a strictly earlier timestamp was accepted, in which
case the tally is set to 0 with a conflict rejection reason. -/
theorem claim3_verified_pool_step (shared : List BallotClaimTicket)
    (n : NodeState) (st : VTCState) (tx : Transaction)
    (h : txMem tx n.verified_transactions = true) :
    stepVTC shared n st tx =
      match dictGetStr st.reprs (get_unique_repr tx) with
      | some conflicting =>
        if conflicting.timeRank < tx.timeRank then
          { st with
              reasons := dictSetTx st.reasons tx
                (.conflictingTransaction "Conflicting transaction with earlier timestamp found"),
              tally := dictSetTx st.tally tx 0 }
        else { st with tally := dictSetTx st.tally tx 1 }
      | none =>
        { st with reprs := dictSetStr st.reprs (get_unique_repr tx) tx,
                  tally := dictSetTx st.tally tx 1 } := by
  unfold stepVTC
  rw [h]
  simp

/-- Claim C3 witness: the amended step behavior evaluated at the concrete
recipient, an empty repr table and the verified-pool transaction: tally
1. -/
theorem claim3_verified_pool_step_witness :
    stepVTC [] c3node { reprs := [], tally := [], reasons := [] } c3tx2 =
      { reprs := [(get_unique_repr c3tx2, c3tx2)],
        tally := [(c3tx2, 1)], reasons := [] } := by
  rw [claim3_verified_pool_step [] c3node
    { reprs := [], tally := [], reasons := [] } c3tx2 (by decide)]
  decide

/-- First transaction of the determinism scenario. -/
def c7t1 : Transaction :=
  mkVoterTransaction 71 voterAlice 10 "2020-11-03 10:07" 6

/-- Second transaction of the determinism scenario (different voter, hence
different signature bytes). -/
def c7t2 : Transaction :=
  mkVoterTransaction 72 voterBob 10 "2020-11-03 10:07" 7

/-- Replica A of the determinism scenario: both transactions tallied 4 of
4, insertion order t1 then t2. -/
def c7nodeA : NodeState :=
  { key := 10, node_mapping := [1, 2, 3],
    verified_transactions := [c7t1, c7t2], rejected_transactions := [],
    data := .plain }

/-- Round state of replica A. -/
def c7csA : ConsensusState :=
  { node := c7nodeA,
    transaction_tally := [(c7t1, 4), (c7t2, 4)],
    transaction_rejection_reasons := [], chainBlocks := [] }

/-- Replica B of the determinism scenario: the same tallies for the same
transactions, but received in the opposite order. -/
def c7nodeB : NodeState :=
  { key := 11, node_mapping := [1, 2, 3],
    verified_transactions := [c7t2, c7t1], rejected_transactions := [],
    data := .plain }

/-- Round state of replica B. -/
def c7csB : ConsensusState :=
  { node := c7nodeB,
    transaction_tally := [(c7t2, 4), (c7t1, 4)],
    transaction_rejection_reasons := [], chainBlocks := [] }

/-- Replica A2: the same head key as replica B but the tally insertion
order of replica A; used by the witness below. -/
def c7csA2 : ConsensusState :=
  { c7csB with transaction_tally := [(c7t1, 4), (c7t2, 4)] }

/-- Claim C7 counterexample: two replicas approve the same transaction set
(the approvals are permutations of one another) on the same predecessor at
the same minute, yet the committed sequences keep their set-iteration
orders — no sorting by signature bytes happens (replica B commits an
unsorted sequence) — and the two block hashes differ. -/
theorem claim7_counterexample :
    List.Perm (approved_transactions c7csA) (approved_transactions c7csB) ∧
    approved_transactions c7csA = [c7t1, c7t2] ∧
    approved_transactions c7csB = [c7t2, c7t1] ∧
    (finalize_consensus_round c7csB).chainBlocks = [[c7t2, c7t1]] ∧
    sortedBySignature [c7t2, c7t1] = false ∧
    (mkBlock (approved_transactions c7csA) 10 "prevhash" "2020-11-03 10:08").hash
      ≠ (mkBlock (approved_transactions c7csB) 11 "prevhash" "2020-11-03 10:08").hash := by
  decide

/-- Claim C7 (amended): the block hash is a function of the committed
transaction SEQUENCE, the predecessor hash and the minute timestamp alone:
two replicas that commit the same approved sequence on the same
predecessor at the same minute produce identical hashes whatever their
keys, and their headers are their own signatures over that hash.  (The
committed sequence is the set-iteration order of the approvals; the code
applies no ordering by signature bytes.) -/
theorem claim7_sequence_determinism (csA csB : ConsensusState) (kA kB : Nat)
    (prevHash timeStr : String)
    (h : approved_transactions csA = approved_transactions csB) :
    (mkBlock (approved_transactions csA) kA prevHash timeStr).hash
      = (mkBlock (approved_transactions csB) kB prevHash timeStr).hash ∧
    (mkBlock (approved_transactions csA) kA prevHash timeStr).header
      = sign kA (mkBlock (approved_transactions csA) kA prevHash timeStr).hash ∧
    (mkBlock (approved_transactions csB) kB prevHash timeStr).header
      = sign kB (mkBlock (approved_transactions csB) kB prevHash timeStr).hash := by
  rw [h]
  exact ⟨rfl, rfl, rfl⟩

/-- Claim C7 witness: replicas A and A2 hold the same approved sequence
and produce the same block hash from the same predecessor and minute,
though their keys differ. -/
theorem claim7_sequence_determinism_witness :
    (mkBlock (approved_transactions c7csA) 10 "prevhash" "2020-11-03 10:08").hash
      = (mkBlock (approved_transactions c7csA2) 11 "prevhash" "2020-11-03 10:08").hash ∧
    (mkBlock (approved_transactions c7csA) 10 "prevhash" "2020-11-03 10:08").header
      = sign 10 (mkBlock (approved_transactions c7csA) 10 "prevhash" "2020-11-03 10:08").hash ∧
    (mkBlock (approved_transactions c7csA2) 11 "prevhash" "2020-11-03 10:08").header
      = sign 11 (mkBlock (approved_transactions c7csA2) 11 "prevhash" "2020-11-03 10:08").hash :=
  claim7_sequence_determinism c7csA c7csA2 10 11 "prevhash" "2020-11-03 10:08" (by decide)

/-- The substituted map of a dict assignment keeps every key. -/
lemma dictSet_subst_key {α : Type} (k : String) (v : α) (e : String × α) :
    ((fun e : String × α => if e.1 == k then (e.1, v) else e) e).1 = e.1 := by
  by_cases h : e.1 == k <;> simp [h]

/-- The in-place branch of a dict assignment leaves the key predicate of
every entry unchanged. -/
lemma dictSet_subst_pred {α : Type} (k k2 : String) (v : α) :
    ((fun e : String × α => e.1 == k2) ∘
      (fun e : String × α => if e.1 == k then (e.1, v) else e))
    = (fun e : String × α => e.1 == k2) := by
  funext e
  by_cases h : e.1 = k <;> simp [Function.comp, h]

/-- Lookup at the assigned key after a dict assignment whose key was
already present gives the new value. -/
lemma dictGetStr_map_subst_self {α : Type} (d : List (String × α)) (k : String) (v : α) :
    dictGetStr (d.map (fun e => if e.1 == k then (e.1, v) else e)) k
      = (dictGetStr d k).map (fun _ => v) := by
  unfold dictGetStr
  rw [List.find?_map, dictSet_subst_pred]
  cases hfind : d.find? (fun e => e.1 == k) with
  | none => simp
  | some e =>
    have hpe := List.find?_some hfind
    simp only [beq_iff_eq] at hpe
    simp [hpe]

/-- Lookup at a different key is unchanged by the in-place branch of a
dict assignment. -/
lemma dictGetStr_map_subst_ne {α : Type} (d : List (String × α)) (k k2 : String)
    (v : α) (hne : ¬ k2 = k) :
    dictGetStr (d.map (fun e => if e.1 == k then (e.1, v) else e)) k2
      = dictGetStr d k2 := by
  unfold dictGetStr
  rw [List.find?_map, dictSet_subst_pred]
  cases hfind : d.find? (fun e => e.1 == k2) with
  | none => simp
  | some e =>
    have hpe := List.find?_some hfind
    simp only [beq_iff_eq] at hpe
    have hek : ¬ e.1 = k := by rw [hpe]; exact hne
    simp [hek]

/-- Lookup at the assigned key after a Python dict assignment gives the
assigned value. -/
lemma dictGetStr_dictSetStr_self {α : Type} (d : List (String × α)) (k : String) (v : α) :
    dictGetStr (dictSetStr d k v) k = some v := by
  by_cases hpresent : (d.find? (fun e => e.1 == k)).isSome
  · rw [dictSetStr, if_pos hpresent, dictGetStr_map_subst_self]
    rcases Option.isSome_iff_exists.mp hpresent with ⟨e, he⟩
    simp [dictGetStr, he]
  · rw [dictSetStr, if_neg hpresent]
    have hnone : d.find? (fun e => e.1 == k) = none :=
      Option.not_isSome_iff_eq_none.mp hpresent
    simp [dictGetStr, List.find?_append, hnone]

/-- Lookup at another key is unchanged by a Python dict assignment. -/
lemma dictGetStr_dictSetStr_ne {α : Type} (d : List (String × α)) (k k2 : String)
    (v : α) (hne : ¬ k2 = k) :
    dictGetStr (dictSetStr d k v) k2 = dictGetStr d k2 := by
  by_cases hpresent : (d.find? (fun e => e.1 == k)).isSome
  · rw [dictSetStr, if_pos hpresent]
    exact dictGetStr_map_subst_ne d k k2 v hne
  · rw [dictSetStr, if_neg hpresent]
    simp only [dictGetStr, List.find?_append]
    cases hfind : d.find? (fun e => e.1 == k2) with
    | some e => simp [hfind]
    | none =>
      have hk : (k == k2) = false :=
        beq_eq_false_iff_ne.mpr (fun hc => hne hc.symm)
      simp [hfind, List.find?, hk]

/-- Committed VoterTxs of one block referencing a voter id. -/
def countVoterTxsBlock (voterId : String) (txs : List Transaction) : Nat :=
  (txs.filter (fun tx => txVoterId tx == some voterId)).length

/-- The chain count decomposes over blocks. -/
lemma countVoterTxs_cons (voterId : String) (b : List Transaction)
    (rest : List (List Transaction)) :
    countVoterTxs voterId (b :: rest)
      = countVoterTxsBlock voterId b + countVoterTxs voterId rest := by
  simp [countVoterTxs, countVoterTxsBlock]

/-- Lookup after applying one VoterTx: the referenced voter loses one
ticket, every other key is unchanged. -/
lemma apply_voter_tx_lookup {st st2 : List (String × Int)} {tx : Transaction}
    {vid : String} {r : ℤ} (happ : apply_voter_tx st tx = some st2)
    (hlook : dictGetStr st vid = some r) :
    dictGetStr st2 vid
      = some (r - (if txVoterId tx == some vid then 1 else 0)) := by
  match hc : tx.content with
  | .ballot _ => simp [apply_voter_tx, hc] at happ
  | .voter v =>
    simp only [apply_voter_tx, hc] at happ
    cases hv : dictGetStr st v.id with
    | none => rw [hv] at happ; exact absurd happ (by simp)
    | some x =>
      rw [hv] at happ
      simp only [Option.some.injEq] at happ
      subst happ
      by_cases hid : vid = v.id
      · subst hid
        rw [hv] at hlook
        have hrx : r = x := by simpa using hlook.symm
        subst hrx
        rw [dictGetStr_dictSetStr_self]
        simp [txVoterId, hc]
      · rw [dictGetStr_dictSetStr_ne st v.id vid _ hid]
        rw [hlook]
        have : (txVoterId tx == some vid) = false := by
          simp [txVoterId, hc]
          exact fun hcc => hid (hcc ▸ rfl)
        simp [this]

/-- Lookup after applying one block of VoterTxs. -/
lemma apply_voter_block_lookup {txs : List Transaction} :
    ∀ {st st2 : List (String × Int)} {vid : String} {r : ℤ},
    dictGetStr st vid = some r →
    apply_voter_block st txs = some st2 →
    dictGetStr st2 vid = some (r - (countVoterTxsBlock vid txs : ℤ)) := by
  induction txs with
  | nil =>
    intro st st2 vid r hlook happ
    simp only [apply_voter_block, List.foldlM_nil, pure, Option.some.injEq] at happ
    subst happ
    simpa [countVoterTxsBlock] using hlook
  | cons tx rest ih =>
    intro st st2 vid r hlook happ
    simp only [apply_voter_block, List.foldlM_cons] at happ
    cases h1 : apply_voter_tx st tx with
    | none =>
      rw [h1] at happ
      exact absurd happ (by simp [Bind.bind])
    | some st1 =>
      rw [h1] at happ
      simp only [Bind.bind, Option.bind_some] at happ
      have hl1 := apply_voter_tx_lookup h1 hlook
      have := ih hl1 happ
      rw [this]
      simp only [countVoterTxsBlock, List.filter_cons]
      by_cases hm : (txVoterId tx == some vid) = true
      · simp only [hm, if_true, List.length_cons]
        congr 1
        push_cast
        omega
      · simp only [Bool.not_eq_true] at hm
        simp only [hm, Bool.false_eq_true, if_false]
        congr 1
        simp [hm]

/-- Lookup after applying a whole chain of blocks. -/
lemma apply_voter_chain_lookup {blocks : List (List Transaction)} :
    ∀ {st st2 : List (String × Int)} {vid : String} {r : ℤ},
    dictGetStr st vid = some r →
    apply_voter_chain st blocks = some st2 →
    dictGetStr st2 vid = some (r - (countVoterTxs vid blocks : ℤ)) := by
  induction blocks with
  | nil =>
    intro st st2 vid r hlook happ
    simp only [apply_voter_chain, List.foldlM_nil, pure, Option.some.injEq] at happ
    subst happ
    simpa [countVoterTxs] using hlook
  | cons b rest ih =>
    intro st st2 vid r hlook happ
    simp only [apply_voter_chain, List.foldlM_cons] at happ
    cases h1 : apply_voter_block st b with
    | none =>
      rw [h1] at happ
      exact absurd happ (by simp [Bind.bind])
    | some st1 =>
      rw [h1] at happ
      simp only [Bind.bind, Option.bind_some] at happ
      have hl1 := apply_voter_block_lookup hlook h1
      have := ih hl1 happ
      rw [this, countVoterTxs_cons]
      congr 1
      push_cast
      omega

/-- Folding further genesis insertions with fresh keys preserves a
lookup. -/
lemma genesis_fold_preserve (rest : List Voter) (vid : String) :
    ∀ st : List (String × Int), (∀ w ∈ rest, ¬ w.id = vid) →
    dictGetStr (rest.foldl (fun s w => dictSetStr s w.id ((w.num_claim_tickets : Int))) st) vid
      = dictGetStr st vid := by
  induction rest with
  | nil => intro st _; rfl
  | cons w ws ih =>
    intro st h
    have h1 : ¬ w.id = vid := h w (List.mem_cons_self w ws)
    have h2 : ∀ u ∈ ws, ¬ u.id = vid := fun u hu => h u (List.mem_cons_of_mem w hu)
    calc dictGetStr ((w :: ws).foldl (fun s u => dictSetStr s u.id ((u.num_claim_tickets : Int))) st) vid
        = dictGetStr (ws.foldl (fun s u => dictSetStr s u.id ((u.num_claim_tickets : Int)))
            (dictSetStr st w.id ((w.num_claim_tickets : Int)))) vid := rfl
      _ = dictGetStr (dictSetStr st w.id ((w.num_claim_tickets : Int))) vid := ih _ h2
      _ = dictGetStr st vid :=
          dictGetStr_dictSetStr_ne st w.id vid _ (fun hc => h1 (hc ▸ rfl))

/-- The genesis state of a VoterBlockchain maps each roll voter to its
allotment, provided the roll ids are distinct. -/
lemma genesis_lookup (roll : List Voter) (v : Voter) :
    ∀ st : List (String × Int), v ∈ roll → (roll.map Voter.id).Nodup →
    dictGetStr (roll.foldl (fun s w => dictSetStr s w.id ((w.num_claim_tickets : Int))) st) v.id
      = some (v.num_claim_tickets : Int) := by
  induction roll with
  | nil => intro st hv _; exact absurd hv (by simp)
  | cons w ws ih =>
    intro st hv hnodup
    rw [List.map_cons] at hnodup
    have hfresh : w.id ∉ ws.map Voter.id := (List.nodup_cons.mp hnodup).1
    have hnodup2 : (ws.map Voter.id).Nodup := (List.nodup_cons.mp hnodup).2
    rcases List.mem_cons.mp hv with hvw | hvs
    · subst hvw
      have hids : ∀ u ∈ ws, ¬ u.id = v.id := by
        intro u hu hc
        exact hfresh (hc ▸ List.mem_map_of_mem Voter.id hu)
      calc dictGetStr ((v :: ws).foldl (fun s u => dictSetStr s u.id ((u.num_claim_tickets : Int))) st) v.id
          = dictGetStr (ws.foldl (fun s u => dictSetStr s u.id ((u.num_claim_tickets : Int)))
              (dictSetStr st v.id ((v.num_claim_tickets : Int)))) v.id := rfl
        _ = dictGetStr (dictSetStr st v.id ((v.num_claim_tickets : Int))) v.id :=
            genesis_fold_preserve ws v.id _ hids
        _ = some (v.num_claim_tickets : Int) := dictGetStr_dictSetStr_self ..
    · exact ih _ hvs hnodup2

/-- Claim C9: for an Authenticator replica, after any sequence of
committed blocks that applies successfully, the initial allotment of a
roll voter minus the remaining-ticket count recorded for it in the head
state equals the number of committed VoterTxs referencing that voter
across the chain (roll ids distinct, as the sequentially assigned ids
are). -/
theorem claim9_ticket_conservation (roll : List Voter)
    (blocks : List (List Transaction)) (st2 : List (String × Int)) (v : Voter)
    (hnodup : (roll.map Voter.id).Nodup) (hv : v ∈ roll)
    (happly : apply_voter_chain (voter_genesis_state roll) blocks = some st2) :
    ∃ remaining : ℤ, dictGetStr st2 v.id = some remaining ∧
      (v.num_claim_tickets : ℤ) - remaining = (countVoterTxs v.id blocks : ℤ) := by
  have hgen : dictGetStr (voter_genesis_state roll) v.id
      = some (v.num_claim_tickets : Int) :=
    genesis_lookup roll v [] hv hnodup
  have hhead := apply_voter_chain_lookup hgen happly
  exact ⟨_, hhead, by omega⟩

/-- The roll of the conservation witness. -/
def c9roll : List Voter := [voterAlice, voterBob]

/-- Block one of the witness chain: one ticket issued to alice. -/
def c9b1tx : Transaction :=
  mkVoterTransaction 91 voterAlice 10 "2020-11-03 10:10" 10

/-- Block two, first ticket: alice again. -/
def c9b2tx1 : Transaction :=
  mkVoterTransaction 92 voterAlice 10 "2020-11-03 10:11" 11

/-- Block two, second ticket: bob. -/
def c9b2tx2 : Transaction :=
  mkVoterTransaction 93 voterBob 10 "2020-11-03 10:12" 12

/-- The witness chain: two committed blocks. -/
def c9blocks : List (List Transaction) := [[c9b1tx], [c9b2tx1, c9b2tx2]]

/-- The head state reached by the witness chain. -/
def c9head : List (String × Int) := [("1", 1), ("2", 0)]

/-- Claim C9 witness: the conservation evaluated on a concrete roll and a
two-block chain: alice starts with 3 tickets, two VoterTxs reference her,
and the head state records 1 remaining. -/
theorem claim9_ticket_conservation_witness :
    ∃ remaining : ℤ, dictGetStr c9head voterAlice.id = some remaining ∧
      (voterAlice.num_claim_tickets : ℤ) - remaining
        = (countVoterTxs voterAlice.id c9blocks : ℤ) :=
  claim9_ticket_conservation c9roll c9blocks c9head voterAlice
    (by decide) (by decide) (by decide)

/-- Claim C10: generate_ballot_claim_ticket is atomic on failure — when it
returns an error (UnknownVoter, NotEnoughBallotClaimTickets, or the
TypeError of a missing state key), no ticket is produced and the world
(the issuer pools, its blockchain state and every peer) is exactly the
input world — and a ticket is returned only when the VoterTransaction has
been added to the issuer verified pool and broadcast to every peer, with
the issuer rejected pool and blockchain state untouched. -/
theorem claim10_issuance_atomic (w : World) (voter : Option Voter)
    (fid : String) (oid : Nat) (tStr : String) (tRank : Nat)
    (res : Except GenError BallotClaimTicket) (w2 : World)
    (h : generate_ballot_claim_ticket w voter fid oid tStr tRank = (res, w2)) :
    (∀ e : GenError, res = .error e → w2 = w) ∧
    (∀ tk : BallotClaimTicket, res = .ok tk →
      ∃ v : Voter, voter = some v ∧
        tk = { id := fid, node := w.issuer.key,
               signature := sign w.issuer.key fid } ∧
        w2.issuer.verified_transactions
          = setAdd w.issuer.verified_transactions
              (mkVoterTransaction oid v w.issuer.key tStr tRank) ∧
        w2.issuer.rejected_transactions = w.issuer.rejected_transactions ∧
        w2.issuer.data = w.issuer.data ∧
        w2.peers = w.peers.map
          (fun p => (add_transaction [] p
            (mkVoterTransaction oid v w.issuer.key tStr tRank)).2)) := by
  unfold generate_ballot_claim_ticket at h
  repeat' split at h
  all_goals injection h with hres hw2
  all_goals subst hres
  all_goals subst hw2
  all_goals
    first
    | exact ⟨fun _ _ => rfl, fun tk htk => Except.noConfusion htk⟩
    | (refine ⟨fun e he => Except.noConfusion he, fun tk htk => ?_⟩
       injection htk with htk1
       subst htk1
       exact ⟨_, rfl, rfl, rfl, rfl, rfl, rfl⟩)

/-- The issuing booth of the issuance witness. -/
def c10issuer : NodeState :=
  { key := 10, node_mapping := [20],
    verified_transactions := [], rejected_transactions := [],
    data := .booth [voterAlice] [("1", 3)] }

/-- The single peer booth of the issuance witness. -/
def c10peer : NodeState :=
  { key := 20, node_mapping := [10],
    verified_transactions := [], rejected_transactions := [],
    data := .booth [voterAlice] [("1", 3)] }

/-- The committee world of the issuance witness. -/
def c10w : World := { issuer := c10issuer, peers := [c10peer] }

/-- Claim C10 witness: issuing to bob (not on the roll) fails and leaves
the world untouched; issuing to alice succeeds, adds the VoterTransaction
to the issuer verified pool and delivers it to the peer. -/
theorem claim10_issuance_atomic_witness :
    (generate_ballot_claim_ticket c10w (some voterBob) "tid" 100 "2020-11-03 10:20" 50).2
      = c10w ∧
    (generate_ballot_claim_ticket c10w (some voterAlice) "tid2" 101 "2020-11-03 10:21" 51).2.issuer.verified_transactions
      = setAdd c10w.issuer.verified_transactions
          (mkVoterTransaction 101 voterAlice c10w.issuer.key "2020-11-03 10:21" 51) ∧
    (generate_ballot_claim_ticket c10w (some voterAlice) "tid2" 101 "2020-11-03 10:21" 51).2.peers
      = c10w.peers.map (fun p => (add_transaction [] p
          (mkVoterTransaction 101 voterAlice c10w.issuer.key "2020-11-03 10:21" 51)).2) := by
  refine ⟨?_, ?_, ?_⟩
  · exact (claim10_issuance_atomic c10w (some voterBob) "tid" 100 "2020-11-03 10:20" 50
      _ _ rfl).1 (.unknownVoter "bob not on voter roll") (by decide)
  all_goals
    rcases (claim10_issuance_atomic c10w (some voterAlice) "tid2" 101 "2020-11-03 10:21" 51
        _ _ rfl).2
        { id := "tid2", node := c10w.issuer.key, signature := sign c10w.issuer.key "tid2" }
        (by decide) with ⟨v, hv, _, h1, _, _, h4⟩
  · injection hv with hv
    subst hv
    exact h1
  · injection hv with hv
    subst hv
    exact h4

end BBVoting
